import Mathlib

/-!
Shallow embedding of the `bottomNavigatorTab.component.tsx` and
`bottomTabNavigator.component.tsx` sources of react-native-ui-kitten's
tab-navigator module.

JavaScript values relevant to the style computations are modelled by `JSVal`
(with `undef` for `undefined`), and JS objects by association lists where a
later binding for a key shadows an earlier one, matching object-spread
semantics (`{...a, k: v}` is `a ++ [(k, v)]`).  Reading an absent key yields
`undefined`, which is how the source's `style.source` access behaves.

Event callbacks are modelled by their observable effect: a press handler
returns the list of invocations it makes of the relevant callback prop,
each invocation carrying the argument passed.  A callback prop that is
`undefined` in JS is `none` here.
-/

namespace UIKitten

/-- A JavaScript value as it appears in the style and prop computations of the
two components: `undefined`, a number, a string, or a boolean. -/
inductive JSVal where
  | undef : JSVal
  | num : Int → JSVal
  | str : String → JSVal
  | bool : Bool → JSVal
deriving DecidableEq, Repr

/-- A JavaScript object: an association list of key-value bindings.  A later
binding for the same key shadows an earlier one (object-spread semantics). -/
abbrev JSObj : Type := List (String × JSVal)

/-- Property access `o.key` on a JS object: the last binding for `key` wins;
an absent key reads as `undefined`. -/
def objGet (o : JSObj) (key : String) : JSVal :=
  ((o.reverse.find? fun p => p.1 == key).map Prod.snd).getD JSVal.undef

/-- JS truthiness of an optional boolean prop: `undefined` is falsy. -/
def truthyBool : Option Bool → Bool
  | none => false
  | some b => b

/-- A React `Image` element as produced by a tab's icon factory and by
`React.cloneElement` on it: its `style` prop and its `key`. -/
structure ImageElement where
  style : JSObj
  key : Option Int := none

/-- A React `Text` element as rendered by `renderTextElement`. -/
structure TextElement where
  key : Int
  style : JSObj
  text : String
deriving DecidableEq, Repr

/-- The `onSelect` callback prop of a `BottomNavigatorTab`: either a
user-supplied `(selected: boolean) => void` (identified by a tag), or the
callback `() => this.onChildPress(index)` injected by `BottomTabNavigator`
when it clones the child (bottomTabNavigator, line 140). -/
inductive TabCallback where
  | user (tag : Nat)
  | injected (index : Nat)
deriving DecidableEq, Repr

/-- Props of a `BottomNavigatorTab` element (bottomNavigatorTab, lines
95-102), together with the element-level `key` and `style` that
`React.cloneElement` can override and an `extra` object standing for any
remaining props spread through `TouchableOpacityProps`. -/
structure TabProps where
  title : Option String := none
  icon : Option (JSObj → ImageElement) := none
  selected : Option Bool := none
  onSelect : Option TabCallback := none
  key : Option Int := none
  style : JSObj := []
  themedStyle : JSObj := []
  extra : JSObj := []

/-- Props of a `BottomTabNavigator` (bottomTabNavigator, lines 89-95).
`onSelect` is `none` when the callback prop is `undefined`, and `some tag`
when a callback (identified by `tag`) is supplied.  `selectedIndex` is
`none` when the prop is omitted; `defaultProps` then supplies `0`. -/
structure NavProps where
  children : List TabProps := []
  selectedIndex : Option Int := none
  onSelect : Option Nat := none
  style : JSObj := []
  themedStyle : JSObj := []

/-- The `TabBarIndicator` element produced by `renderIndicatorElement`
(bottomTabNavigator, lines 124-133): key `0`, a two-entry style array,
`selectedPosition` and `positions`. -/
structure IndicatorElement where
  key : Int
  style : List JSObj
  selectedPosition : Int
  positions : Nat

/-- One entry of the children array built by the navigator's
`renderComponentChildren` (bottomTabNavigator, lines 154-157): the first
slot is the indicator element or `undefined`, the rest are cloned tabs. -/
inductive NavChild where
  | undef : NavChild
  | indicator (e : IndicatorElement) : NavChild
  | tab (e : TabProps) : NavChild

/-- Extracts the tab element from a `NavChild`, when it is one. -/
def navChildTab : NavChild → Option TabProps
  | NavChild.tab t => some t
  | _ => none

/-- One entry of the children array built by the tab's
`renderComponentChildren` (bottomNavigatorTab, lines 150-153); each of the
two slots holds an image element, a text element, or `null`. -/
inductive TabChild where
  | image (e : ImageElement) : TabChild
  | text (e : TextElement) : TabChild

namespace BottomNavigatorTab

/-- The handler `onPress` (bottomNavigatorTab, lines 106-110), wired to the
rendered `TouchableOpacity` (line 165): when the `onSelect` prop is defined
it is invoked once with `!this.props.selected`, otherwise nothing happens.
The result is the list of invocations made, with their arguments. -/
def onPress (p : TabProps) : List (TabCallback × Bool) :=
  match p.onSelect with
  | some cb => [(cb, !truthyBool p.selected)]
  | none => []

/-- The pair of style objects computed by `getComponentStyle`
(bottomNavigatorTab, lines 112-125) from the themed source. -/
structure ComponentStyle where
  icon : JSObj
  title : JSObj
deriving DecidableEq, Repr

/-- The method `getComponentStyle` (bottomNavigatorTab, lines 112-125). -/
def getComponentStyle (source : JSObj) : ComponentStyle :=
  { icon := [("width", objGet source "iconWidth"),
             ("height", objGet source "iconHeight"),
             ("marginBottom", objGet source "iconMarginBottom"),
             ("tintColor", objGet source "iconTintColor")],
    title := [("color", objGet source "textColor"),
              ("fontWeight", objGet source "textFontWeight")] }

/-- The method `renderImageElement` (bottomNavigatorTab, lines 127-137):
when the `icon` prop is defined, its factory is applied to the icon style
and the resulting element is cloned with `style` spread from the element's
own style plus `marginBottom: style.source` (the source literally reads the
absent key `source`, hence `undefined`), and `key: 1`; otherwise `null`. -/
def renderImageElement (p : TabProps) (style : JSObj) : Option ImageElement :=
  match p.icon with
  | some factory =>
      let icon := factory style
      some { style := icon.style ++ [("marginBottom", objGet style "source")],
             key := some 1 }
  | none => none

/-- The method `renderTextElement` (bottomNavigatorTab, lines 139-148): a
`Text` element with key `2` when `title` is a defined, non-empty string,
otherwise `null`. -/
def renderTextElement (p : TabProps) (style : JSObj) : Option TextElement :=
  match p.title with
  | some title =>
      if title.length ≠ 0 then some { key := 2, style := style, text := title }
      else none
  | none => none

/-- The method `renderComponentChildren` (bottomNavigatorTab, lines
150-153): the image slot followed by the text slot. -/
def renderComponentChildren (p : TabProps) (style : ComponentStyle) :
    List (Option TabChild) :=
  [(renderImageElement p style.icon).map TabChild.image,
   (renderTextElement p style.title).map TabChild.text]

/-- The static `styles.container` of bottomNavigatorTab (lines 172-178). -/
def stylesContainer : JSObj :=
  [("flex", JSVal.num 1),
   ("justifyContent", JSVal.str "center"),
   ("alignItems", JSVal.str "center")]

/-- The rendered `TouchableOpacity` of a `BottomNavigatorTab` (lines
160-168): its style array, `activeOpacity`, and children. -/
structure Rendered where
  style : List JSObj
  activeOpacity : Int
  children : List (Option TabChild)

/-- The method `render` (bottomNavigatorTab, lines 155-169). -/
def render (p : TabProps) : Rendered :=
  let componentStyles := getComponentStyle p.themedStyle
  { style := [p.style, stylesContainer],
    activeOpacity := 1,
    children := renderComponentChildren p componentStyles }

end BottomNavigatorTab

namespace BottomTabNavigator

/-- The `selectedIndex` entry of `defaultProps` (bottomTabNavigator, lines
99-101). -/
def defaultSelectedIndex : Int := 0

/-- The value of `this.props.selectedIndex` after React applies
`defaultProps`: the supplied prop, or `0` when omitted. -/
def effSelectedIndex (p : NavProps) : Int :=
  p.selectedIndex.getD defaultSelectedIndex

/-- The method `onChildPress` (bottomTabNavigator, lines 118-122): the
navigator's `onSelect` prop is invoked with `index` exactly when it is
defined and `this.props.selectedIndex !== index`.  The result is the list
of invocations made, each tagged with the callback's identity. -/
def onChildPress (nav : NavProps) (index : Nat) : List (Nat × Int) :=
  match nav.onSelect with
  | some tag =>
      if effSelectedIndex nav ≠ (index : Int) then [(tag, (index : Int))]
      else []
  | none => []

/-- The container and indicator style objects computed by
`getComponentStyle` (bottomTabNavigator, lines 103-116). -/
structure ComponentStyle where
  container : JSObj
  indicator : JSObj
deriving DecidableEq, Repr

/-- The method `getComponentStyle` (bottomTabNavigator, lines 103-116). -/
def getComponentStyle (style : JSObj) : ComponentStyle :=
  { container := [("backgroundColor", objGet style "backgroundColor"),
                  ("paddingVertical", objGet style "paddingVertical"),
                  ("borderTopColor", objGet style "borderTopColor"),
                  ("borderTopWidth", objGet style "borderTopWidth")],
    indicator := [("height", objGet style "indicatorHeight"),
                  ("backgroundColor", objGet style "indicatorBackgroundColor")] }

/-- The static `styles.indicator` of bottomTabNavigator (lines 182-184). -/
def stylesIndicator : JSObj :=
  [("position", JSVal.str "absolute")]

/-- The static `styles.container` of bottomTabNavigator (lines 177-181);
its `width` is `Dimensions.get('window').width`, passed in here as the
environment parameter `windowWidth`. -/
def stylesContainer (windowWidth : Int) : JSObj :=
  [("flexDirection", JSVal.str "row"),
   ("justifyContent", JSVal.str "space-between"),
   ("width", JSVal.num windowWidth)]

/-- The method `renderIndicatorElement` (bottomTabNavigator, lines
124-133). -/
def renderIndicatorElement (nav : NavProps) (positions : Nat) (style : JSObj) :
    IndicatorElement :=
  { key := 0,
    style := [style, stylesIndicator],
    selectedPosition := effSelectedIndex nav,
    positions := positions }

/-- The method `renderTabElement` (bottomTabNavigator, lines 135-142):
`React.cloneElement` keeps every prop of the child and overrides `key`,
`style`, `selected` and `onSelect`; the injected `onSelect` is
`() => this.onChildPress(index)`. -/
def renderTabElement (nav : NavProps) (element : TabProps) (index : Nat) :
    TabProps :=
  { element with
      key := some (index : Int),
      style := [("flex", JSVal.num 1)],
      selected := some (decide ((index : Int) = effSelectedIndex nav)),
      onSelect := some (TabCallback.injected index) }

/-- The method `renderComponentChildren` (bottomTabNavigator, lines
144-158): the indicator slot (the element when the indicator background is
not `'transparent'`, `undefined` otherwise) followed by the cloned tabs. -/
def renderComponentChildren (nav : NavProps) (indicator : JSObj) :
    List NavChild :=
  let tabElements := nav.children.enum.map fun p => renderTabElement nav p.2 p.1
  let shouldShowIndicator : Bool :=
    objGet indicator "backgroundColor" != JSVal.str "transparent"
  (if shouldShowIndicator then
    NavChild.indicator (renderIndicatorElement nav tabElements.length indicator)
   else NavChild.undef) :: tabElements.map NavChild.tab

/-- The rendered root `View` of a `BottomTabNavigator` (lines 166-172):
its style array and children. -/
structure Rendered where
  style : List JSObj
  children : List NavChild

/-- The method `render` (bottomTabNavigator, lines 160-173). -/
def render (windowWidth : Int) (nav : NavProps) : Rendered :=
  let componentStyles := getComponentStyle nav.themedStyle
  { style := [componentStyles.container, nav.style, stylesContainer windowWidth],
    children := renderComponentChildren nav componentStyles.indicator }

end BottomTabNavigator

/-- The cloned tab elements appearing in a rendered `BottomTabNavigator`,
in order. -/
def renderedTabs (windowWidth : Int) (nav : NavProps) : List TabProps :=
  (BottomTabNavigator.render windowWidth nav).children.filterMap navChildTab

/-- Firing a tab's `onSelect` callback: a user-supplied callback does not
touch the navigator; the injected `() => this.onChildPress(index)` runs
`onChildPress`.  The result is the list of invocations of the navigator's
`onSelect` prop. -/
def fireTabCallback (nav : NavProps) : TabCallback → List (Nat × Int)
  | TabCallback.user _ => []
  | TabCallback.injected index => BottomTabNavigator.onChildPress nav index

/-- A user's tap on the rendered tab at position `index` of a
`BottomTabNavigator`: the cloned child's `TouchableOpacity` fires its
`onPress`, which invokes the child's (injected) `onSelect`; the result is
the list of invocations of the navigator's `onSelect` prop. -/
def tapChild (windowWidth : Int) (nav : NavProps) (index : Nat) :
    List (Nat × Int) :=
  match (renderedTabs windowWidth nav)[index]? with
  | none => []
  | some t => (BottomNavigatorTab.onPress t).flatMap fun c => fireTabCallback nav c.1

/-! ### Concrete inputs used by counterexamples and witnesses -/

/-- A navigator with one tab, `selectedIndex = 0` and an `onSelect` callback. -/
def c1Nav : NavProps :=
  { children := [{}], selectedIndex := some 0, onSelect := some 7 }

/-- A navigator with two tabs, `selectedIndex = 0` and an `onSelect` callback. -/
def c1NavB : NavProps :=
  { children := [{}, {}], selectedIndex := some 0, onSelect := some 7 }

/-- A themed style source with all four icon tokens set. -/
def c2Source : JSObj :=
  [("iconWidth", JSVal.num 24), ("iconHeight", JSVal.num 24),
   ("iconMarginBottom", JSVal.num 4), ("iconTintColor", JSVal.str "blue")]

/-- An icon factory that renders an image styled exactly with the style it
is given, as in the component's documented usage. -/
def c2Factory : JSObj → ImageElement := fun style => { style := style }

/-- A tab with an icon and the themed source `c2Source`. -/
def c2Tab : TabProps := { icon := some c2Factory, themedStyle := c2Source }

/-- A navigator with one child and the out-of-range `selectedIndex = 5`. -/
def c3Nav : NavProps := { children := [{}], selectedIndex := some 5 }

/-- A selected tab with a user-supplied `onSelect` callback. -/
def c4Tab : TabProps := { selected := some true, onSelect := some (TabCallback.user 3) }

/-- A tab whose `onSelect` prop is undefined. -/
def c5Tab : TabProps := { selected := some false }

/-- A navigator with one child and no `onSelect` prop. -/
def c5Nav : NavProps := { children := [{}] }

/-- A navigator whose themed indicator background is a visible colour. -/
def c6Nav : NavProps :=
  { children := [{}], selectedIndex := some 0,
    themedStyle := [("indicatorBackgroundColor", JSVal.str "blue")] }

/-- A tab with both a title and an icon. -/
def c7Tab : TabProps := { title := some "Home", icon := some fun s => { style := s } }

/-- A tab carrying a title and an extra prop, to be cloned. -/
def c8Tab : TabProps := { title := some "Home", extra := [("testID", JSVal.str "t")] }

/-- A navigator holding `c8Tab` as its only child. -/
def c8Nav : NavProps := { children := [c8Tab], selectedIndex := some 0 }

/-- A navigator with one child and `selectedIndex` omitted. -/
def c10Nav : NavProps := { children := [{}] }

/-! ### Helper lemmas about the rendered children -/

/-- Filtering the tab elements out of a mapped tab list is the identity. -/
theorem filterMap_navChildTab_map_tab (l : List TabProps) :
    (l.map NavChild.tab).filterMap navChildTab = l := by
  induction l with
  | nil => rfl
  | cons a l ih => simpa [navChildTab] using ih

/-- The cloned tabs of a rendered navigator are exactly the children, each
cloned via `renderTabElement` at its position. -/
theorem renderedTabs_eq (w : Int) (nav : NavProps) :
    renderedTabs w nav
      = nav.children.enum.map fun p => BottomTabNavigator.renderTabElement nav p.2 p.1 := by
  simp only [renderedTabs, BottomTabNavigator.render,
    BottomTabNavigator.renderComponentChildren]
  split
  · rw [List.filterMap_cons_none rfl, filterMap_navChildTab_map_tab]
  · rw [List.filterMap_cons_none rfl, filterMap_navChildTab_map_tab]

/-- Index-wise description of the cloned tabs. -/
theorem renderedTabs_getElem? (w : Int) (nav : NavProps) (i : Nat) :
    (renderedTabs w nav)[i]?
      = nav.children[i]?.map fun c => BottomTabNavigator.renderTabElement nav c i := by
  rw [renderedTabs_eq, List.getElem?_map, List.getElem?_enum, Option.map_map]
  rfl

/-- Rendering preserves the number of tabs. -/
theorem length_renderedTabs (w : Int) (nav : NavProps) :
    (renderedTabs w nav).length = nav.children.length := by
  rw [renderedTabs_eq, List.length_map, List.enum_length]

/-- Tapping a rendered tab at an in-range position runs exactly
`onChildPress` at that position: the cloned child's injected `onSelect`
fires once and forwards to the navigator. -/
theorem tapChild_eq (w : Int) (nav : NavProps) (i : Nat)
    (h : i < nav.children.length) :
    tapChild w nav i = BottomTabNavigator.onChildPress nav i := by
  have hc : nav.children[i]? = some nav.children[i] := List.getElem?_eq_getElem h
  unfold tapChild
  rw [renderedTabs_getElem?, hc, Option.map_some']
  simp [BottomNavigatorTab.onPress, BottomTabNavigator.renderTabElement, fireTabCallback]

/-- Tapping at an out-of-range position is a no-op. -/
theorem tapChild_out_of_range (w : Int) (nav : NavProps) (i : Nat)
    (h : nav.children.length ≤ i) :
    tapChild w nav i = [] := by
  unfold tapChild
  rw [renderedTabs_getElem?, List.getElem?_eq_none h, Option.map_none']

/-! ### Claims -/

/-- **C1**, counterexample.  `c1Nav` has an `onSelect` callback (tag `7`) and
one rendered tab; tapping the tab at position `0` invokes no callback at
all, because `0` equals the navigator's `selectedIndex`.  The claim would
require the invocation list `[(7, 0)]`. -/
theorem c1_claim_counterexample :
    c1Nav.onSelect = some 7
  ∧ (renderedTabs 0 c1Nav).length = 1
  ∧ tapChild 0 c1Nav 0 = [] := by
  refine ⟨rfl, ?_, rfl⟩
  rw [length_renderedTabs]
  rfl

/-- **C1** (amended): when the `BottomTabNavigator` has an `onSelect`
callback and the tab at an in-range position `i` is tapped, the callback is
invoked with `i` provided `i` differs from the navigator's `selectedIndex`;
tapping the tab at `selectedIndex` itself invokes nothing. -/
theorem c1_amended_tap_forwards_index (w : Int) (nav : NavProps) (i tag : Nat)
    (hlen : i < nav.children.length) (hsel : nav.onSelect = some tag)
    (hne : (i : Int) ≠ BottomTabNavigator.effSelectedIndex nav) :
    tapChild w nav i = [(tag, (i : Int))] := by
  rw [tapChild_eq w nav i hlen]
  simp only [BottomTabNavigator.onChildPress, hsel]
  rw [if_pos (Ne.symm hne)]

/-- **C1** witness: tapping the unselected second tab of `c1NavB` invokes
callback `7` with index `1`. -/
theorem c1_amended_witness : tapChild 0 c1NavB 1 = [(7, 1)] :=
  c1_amended_tap_forwards_index 0 c1NavB 1 7 (by decide) rfl (by decide)

/-- **C3**: the source imposes no bound on `selectedIndex`; for any
out-of-range value (negative, or at least the child count) rendering still
produces the full children array — the indicator slot plus one cloned tab
per child — and every cloned tab carries `selected = false`.  The embedding
of `render` is a total function, matching the absence of any bounds check
or throwing operation in the source's render path. -/
theorem c3_out_of_range_selectedIndex_safe (w : Int) (nav : NavProps)
    (h : BottomTabNavigator.effSelectedIndex nav < 0
       ∨ (nav.children.length : Int) ≤ BottomTabNavigator.effSelectedIndex nav) :
    (BottomTabNavigator.render w nav).children.length = nav.children.length + 1
  ∧ ∀ t ∈ renderedTabs w nav, t.selected = some false := by
  constructor
  · simp [BottomTabNavigator.render, BottomTabNavigator.renderComponentChildren]
  · intro t ht
    rw [renderedTabs_eq] at ht
    obtain ⟨⟨i, c⟩, hmem, rfl⟩ := List.mem_map.mp ht
    have hi : i < nav.children.length := by
      have hq := List.mem_enum_iff_getElem?.mp hmem
      have := List.getElem?_eq_some_iff.mp hq
      exact this.1
    have hii : (i : Int) < (nav.children.length : Int) := by exact_mod_cast hi
    have hne : ¬ ((i : Int) = BottomTabNavigator.effSelectedIndex nav) := by
      rcases h with h | h <;> omega
    simp [BottomTabNavigator.renderTabElement, hne]

/-- **C3** witness: `c3Nav` has one child and `selectedIndex = 5`; its
render output has two entries and its only tab is unselected. -/
theorem c3_witness :
    (BottomTabNavigator.render 0 c3Nav).children.length = 2
  ∧ ∀ t ∈ renderedTabs 0 c3Nav, t.selected = some false :=
  c3_out_of_range_selectedIndex_safe 0 c3Nav (Or.inr (by decide))

/-- **C4**: pressing a `BottomNavigatorTab` whose `onSelect` prop is defined
invokes that callback exactly once, with the JS negation of the `selected`
prop (`!selected`, where an undefined `selected` is falsy). -/
theorem c4_press_invokes_onSelect_once (p : TabProps) (cb : TabCallback)
    (h : p.onSelect = some cb) :
    BottomNavigatorTab.onPress p = [(cb, !truthyBool p.selected)] := by
  unfold BottomNavigatorTab.onPress
  rw [h]

/-- **C4** witness: pressing the selected tab `c4Tab` invokes its callback
once with `false`. -/
theorem c4_witness :
    BottomNavigatorTab.onPress c4Tab = [(TabCallback.user 3, false)] :=
  c4_press_invokes_onSelect_once c4Tab (TabCallback.user 3) rfl

/-- **C5**: when the relevant `onSelect` prop is undefined a press is a
no-op.  A press on a lone tab without `onSelect` invokes nothing, and a tap
on any child of a navigator without `onSelect` invokes nothing; both
handlers are total functions, so no error is raised. -/
theorem c5_undefined_onSelect_is_noop :
    (∀ p : TabProps, p.onSelect = none → BottomNavigatorTab.onPress p = [])
  ∧ (∀ (w : Int) (nav : NavProps) (i : Nat), nav.onSelect = none →
        BottomTabNavigator.onChildPress nav i = [] ∧ tapChild w nav i = []) := by
  constructor
  · intro p h
    unfold BottomNavigatorTab.onPress
    rw [h]
  · intro w nav i h
    have hcp : BottomTabNavigator.onChildPress nav i = [] := by
      unfold BottomTabNavigator.onChildPress
      rw [h]
    refine ⟨hcp, ?_⟩
    by_cases hl : i < nav.children.length
    · rw [tapChild_eq w nav i hl, hcp]
    · exact tapChild_out_of_range w nav i (by omega)

/-- **C5** witness: pressing `c5Tab` and tapping the only child of `c5Nav`
both invoke nothing. -/
theorem c5_witness :
    BottomNavigatorTab.onPress c5Tab = [] ∧ tapChild 0 c5Nav 0 = [] :=
  ⟨c5_undefined_onSelect_is_noop.1 c5Tab rfl,
   (c5_undefined_onSelect_is_noop.2 0 c5Nav 0 rfl).2⟩

/-- **C9**: tapping the tab whose index equals the navigator's
`selectedIndex` never invokes the navigator's `onSelect`, and `onChildPress`
forwards an index only when it differs from `selectedIndex`. -/
theorem c9_selected_tab_tap_is_silent :
    (∀ (w : Int) (nav : NavProps) (i : Nat),
        (i : Int) = BottomTabNavigator.effSelectedIndex nav →
          tapChild w nav i = [])
  ∧ (∀ (nav : NavProps) (i : Nat),
        BottomTabNavigator.onChildPress nav i ≠ [] →
          (i : Int) ≠ BottomTabNavigator.effSelectedIndex nav) := by
  constructor
  · intro w nav i hi
    by_cases hl : i < nav.children.length
    · rw [tapChild_eq w nav i hl]
      cases hs : nav.onSelect with
      | none => simp [BottomTabNavigator.onChildPress, hs]
      | some tag =>
          simp only [BottomTabNavigator.onChildPress, hs]
          rw [if_neg (by omega)]
    · exact tapChild_out_of_range w nav i (by omega)
  · intro nav i hcalls heq
    refine hcalls ?_
    cases hs : nav.onSelect with
    | none => simp [BottomTabNavigator.onChildPress, hs]
    | some tag =>
        simp only [BottomTabNavigator.onChildPress, hs]
        rw [if_neg (by omega)]

/-- **C2**, failing input.  For the themed source `c2Source` (with
`iconMarginBottom = 4`) the style computed by `getComponentStyle` and passed
to the icon factory does carry all four theme tokens, but the element the
component actually renders has its `marginBottom` overridden with
`style.source` — an absent key, hence `undefined` — instead of the theme's
`iconMarginBottom`.  The claim is the evident intent of `getComponentStyle`;
the `style.source` read in `renderImageElement` (line 133) is the slip. -/
theorem c2_marginBottom_bug :
    (BottomNavigatorTab.getComponentStyle c2Source).icon
      = [("width", JSVal.num 24), ("height", JSVal.num 24),
         ("marginBottom", JSVal.num 4), ("tintColor", JSVal.str "blue")]
  ∧ (∃ e, (BottomNavigatorTab.render c2Tab).children[0]?
            = some (some (TabChild.image e))
        ∧ objGet e.style "marginBottom" = JSVal.undef
        ∧ objGet e.style "width" = JSVal.num 24)
  ∧ JSVal.undef ≠ JSVal.num 4 := by
  exact ⟨rfl,
    ⟨{ style := [("width", JSVal.num 24), ("height", JSVal.num 24),
                 ("marginBottom", JSVal.num 4), ("tintColor", JSVal.str "blue"),
                 ("marginBottom", JSVal.undef)],
       key := some 1 }, rfl, rfl, rfl⟩,
    by decide⟩

/-- **C6**: the rendered navigator's first child is the indicator element
exactly when the themed `indicatorBackgroundColor` is not `'transparent'`;
when present it carries `positions` equal to the child count and
`selectedPosition` equal to `selectedIndex`, and everything after the first
slot is a cloned tab (so the indicator precedes all tab elements). -/
theorem c6_indicator_iff_not_transparent (w : Int) (nav : NavProps) :
    ((∃ e, (BottomTabNavigator.render w nav).children.head?
        = some (NavChild.indicator e))
      ↔ objGet nav.themedStyle "indicatorBackgroundColor" ≠ JSVal.str "transparent")
  ∧ (∀ e, (BottomTabNavigator.render w nav).children.head?
        = some (NavChild.indicator e) →
        e.positions = nav.children.length
      ∧ e.selectedPosition = BottomTabNavigator.effSelectedIndex nav)
  ∧ (∀ c ∈ (BottomTabNavigator.render w nav).children.tail,
        ∃ t, c = NavChild.tab t) := by
  have hch : (BottomTabNavigator.render w nav).children
      = (if (objGet (BottomTabNavigator.getComponentStyle nav.themedStyle).indicator
              "backgroundColor" != JSVal.str "transparent")
         then NavChild.indicator
            (BottomTabNavigator.renderIndicatorElement nav
              (nav.children.enum.map fun p =>
                BottomTabNavigator.renderTabElement nav p.2 p.1).length
              (BottomTabNavigator.getComponentStyle nav.themedStyle).indicator)
         else NavChild.undef)
        :: (nav.children.enum.map fun p =>
              BottomTabNavigator.renderTabElement nav p.2 p.1).map NavChild.tab := rfl
  have hbg : objGet (BottomTabNavigator.getComponentStyle nav.themedStyle).indicator
      "backgroundColor" = objGet nav.themedStyle "indicatorBackgroundColor" := rfl
  rw [hch, hbg]
  by_cases hc : objGet nav.themedStyle "indicatorBackgroundColor"
      = JSVal.str "transparent"
  · refine ⟨?_, ?_, ?_⟩
    · simp [hc]
    · intro e he
      simp [hc] at he
    · intro c hcmem
      rw [List.tail_cons] at hcmem
      obtain ⟨t, _, rfl⟩ := List.mem_map.mp hcmem
      exact ⟨t, rfl⟩
  · have hb : (objGet nav.themedStyle "indicatorBackgroundColor"
        != JSVal.str "transparent") = true := by simp [hc]
    rw [hb]
    refine ⟨?_, ?_, ?_⟩
    · simp [hc]
    · intro e he
      rw [if_pos rfl, List.head?_cons, Option.some.injEq] at he
      rw [← NavChild.indicator.inj he]
      exact ⟨by simp [BottomTabNavigator.renderIndicatorElement], rfl⟩
    · intro c hcmem
      rw [List.tail_cons] at hcmem
      obtain ⟨t, _, rfl⟩ := List.mem_map.mp hcmem
      exact ⟨t, rfl⟩

/-- **C6** witness: `c6Nav` has a visible indicator background, one child
and `selectedIndex = 0`; its rendered indicator has `positions = 1` and
`selectedPosition = 0`. -/
theorem c6_witness :
    (BottomTabNavigator.renderIndicatorElement c6Nav 1
        (BottomTabNavigator.getComponentStyle c6Nav.themedStyle).indicator).positions = 1
  ∧ (BottomTabNavigator.renderIndicatorElement c6Nav 1
        (BottomTabNavigator.getComponentStyle c6Nav.themedStyle).indicator).selectedPosition
      = BottomTabNavigator.effSelectedIndex c6Nav :=
  (c6_indicator_iff_not_transparent 0 c6Nav).2.1 _ rfl

/-- **C7**: a rendered `BottomNavigatorTab` has exactly two child slots; the
first holds an image element exactly when the `icon` prop is defined, the
second holds a text element exactly when `title` is a defined non-empty
string, and neither slot can hold the other kind — so when both are present
the icon precedes the title. -/
theorem c7_optional_icon_and_label (p : TabProps) :
    (BottomNavigatorTab.render p).children.length = 2
  ∧ ((∃ e, (BottomNavigatorTab.render p).children[0]?
        = some (some (TabChild.image e))) ↔ p.icon.isSome)
  ∧ ((∃ e, (BottomNavigatorTab.render p).children[1]?
        = some (some (TabChild.text e)))
      ↔ ∃ t, p.title = some t ∧ t.length ≠ 0)
  ∧ (∀ e, (BottomNavigatorTab.render p).children[0]?
        ≠ some (some (TabChild.text e)))
  ∧ (∀ e, (BottomNavigatorTab.render p).children[1]?
        ≠ some (some (TabChild.image e))) := by
  refine ⟨rfl, ?_, ?_, ?_, ?_⟩
  · cases hicon : p.icon with
    | none =>
        simp [BottomNavigatorTab.render, BottomNavigatorTab.renderComponentChildren,
          BottomNavigatorTab.renderImageElement, hicon]
    | some factory =>
        simp [BottomNavigatorTab.render, BottomNavigatorTab.renderComponentChildren,
          BottomNavigatorTab.renderImageElement, hicon]
  · cases htitle : p.title with
    | none =>
        simp [BottomNavigatorTab.render, BottomNavigatorTab.renderComponentChildren,
          BottomNavigatorTab.renderTextElement, htitle]
    | some t =>
        by_cases ht : t.length = 0
        · simp [BottomNavigatorTab.render, BottomNavigatorTab.renderComponentChildren,
            BottomNavigatorTab.renderTextElement, htitle, ht]
        · simp [BottomNavigatorTab.render, BottomNavigatorTab.renderComponentChildren,
            BottomNavigatorTab.renderTextElement, htitle, ht]
  · intro e
    cases hicon : p.icon with
    | none =>
        simp [BottomNavigatorTab.render, BottomNavigatorTab.renderComponentChildren,
          BottomNavigatorTab.renderImageElement, hicon]
    | some factory =>
        simp [BottomNavigatorTab.render, BottomNavigatorTab.renderComponentChildren,
          BottomNavigatorTab.renderImageElement, hicon]
  · intro e
    cases htitle : p.title with
    | none =>
        simp [BottomNavigatorTab.render, BottomNavigatorTab.renderComponentChildren,
          BottomNavigatorTab.renderTextElement, htitle]
    | some t =>
        by_cases ht : t.length = 0
        · simp [BottomNavigatorTab.render, BottomNavigatorTab.renderComponentChildren,
            BottomNavigatorTab.renderTextElement, htitle, ht]
        · simp [BottomNavigatorTab.render, BottomNavigatorTab.renderComponentChildren,
            BottomNavigatorTab.renderTextElement, htitle, ht]

/-- **C7** witness: `c7Tab` has both a title and an icon; its render has two
child slots and an image element in the first. -/
theorem c7_witness :
    (BottomNavigatorTab.render c7Tab).children.length = 2
  ∧ (∃ e, (BottomNavigatorTab.render c7Tab).children[0]?
        = some (some (TabChild.image e))) :=
  ⟨(c7_optional_icon_and_label c7Tab).1,
   ((c7_optional_icon_and_label c7Tab).2.1).mpr rfl⟩

/-- **C8**: the navigator's clone of a child overrides exactly `key`,
`style`, `selected` and `onSelect`; `title`, `icon`, `themedStyle` and all
remaining props are unchanged, and the i-th rendered tab is the clone of
the i-th child, so the original order is kept. -/
theorem c8_clone_overrides_only_injected_props :
    (∀ (nav : NavProps) (element : TabProps) (index : Nat),
        (BottomTabNavigator.renderTabElement nav element index).title = element.title
      ∧ (BottomTabNavigator.renderTabElement nav element index).icon = element.icon
      ∧ (BottomTabNavigator.renderTabElement nav element index).themedStyle
          = element.themedStyle
      ∧ (BottomTabNavigator.renderTabElement nav element index).extra = element.extra
      ∧ (BottomTabNavigator.renderTabElement nav element index).key
          = some (index : Int)
      ∧ (BottomTabNavigator.renderTabElement nav element index).style
          = [("flex", JSVal.num 1)]
      ∧ (BottomTabNavigator.renderTabElement nav element index).onSelect
          = some (TabCallback.injected index))
  ∧ (∀ (w : Int) (nav : NavProps) (i : Nat) (hi : i < nav.children.length)
        (hr : i < (renderedTabs w nav).length),
        (renderedTabs w nav).get ⟨i, hr⟩
          = BottomTabNavigator.renderTabElement nav (nav.children.get ⟨i, hi⟩) i)
  ∧ (∀ (w : Int) (nav : NavProps),
        (renderedTabs w nav).length = nav.children.length) := by
  refine ⟨?_, ?_, length_renderedTabs⟩
  · intro nav element index
    exact ⟨rfl, rfl, rfl, rfl, rfl, rfl, rfl⟩
  · intro w nav i hi hr
    have h1 : (renderedTabs w nav)[i]?
        = some ((renderedTabs w nav).get ⟨i, hr⟩) := by
      simp
    rw [renderedTabs_getElem?, List.getElem?_eq_getElem hi, Option.map_some'] at h1
    exact (Option.some.inj h1).symm

/-- **C8** witness: cloning `c8Tab` at position `0` of `c8Nav` keeps its
title, and the first rendered tab is that clone. -/
theorem c8_witness :
    (BottomTabNavigator.renderTabElement c8Nav c8Tab 0).title = c8Tab.title
  ∧ (renderedTabs 0 c8Nav).get ⟨0, by decide⟩
      = BottomTabNavigator.renderTabElement c8Nav (c8Nav.children.get ⟨0, by decide⟩) 0 :=
  ⟨(c8_clone_overrides_only_injected_props.1 c8Nav c8Tab 0).1,
   c8_clone_overrides_only_injected_props.2.1 0 c8Nav 0 (by decide) (by decide)⟩

/-- **C10**: the i-th rendered tab is injected with
`selected = (i == selectedIndex)` (with `selectedIndex` defaulting to `0`
when omitted), two rendered tabs marked selected must be the same tab, and
an omitted `selectedIndex` prop means the effective index is `0`. -/
theorem c10_unique_selected_child :
    (∀ (w : Int) (nav : NavProps) (i : Nat) (h : i < (renderedTabs w nav).length),
        ((renderedTabs w nav).get ⟨i, h⟩).selected
          = some (decide ((i : Int) = BottomTabNavigator.effSelectedIndex nav)))
  ∧ (∀ (w : Int) (nav : NavProps) (i j : Nat)
        (hi : i < (renderedTabs w nav).length)
        (hj : j < (renderedTabs w nav).length),
        ((renderedTabs w nav).get ⟨i, hi⟩).selected = some true →
        ((renderedTabs w nav).get ⟨j, hj⟩).selected = some true → i = j)
  ∧ (∀ nav : NavProps, nav.selectedIndex = none →
        BottomTabNavigator.effSelectedIndex nav = 0) := by
  have part1 : ∀ (w : Int) (nav : NavProps) (i : Nat)
      (h : i < (renderedTabs w nav).length),
      ((renderedTabs w nav).get ⟨i, h⟩).selected
        = some (decide ((i : Int) = BottomTabNavigator.effSelectedIndex nav)) := by
    intro w nav i h
    have hlen : i < nav.children.length := by rwa [length_renderedTabs] at h
    have h1 : (renderedTabs w nav)[i]?
        = some ((renderedTabs w nav).get ⟨i, h⟩) := by
      simp
    rw [renderedTabs_getElem?, List.getElem?_eq_getElem hlen, Option.map_some'] at h1
    rw [← Option.some.inj h1]
    rfl
  refine ⟨part1, ?_, ?_⟩
  · intro w nav i j hi hj hsi hsj
    rw [part1 w nav i hi] at hsi
    rw [part1 w nav j hj] at hsj
    have h1 := of_decide_eq_true (Option.some.inj hsi)
    have h2 := of_decide_eq_true (Option.some.inj hsj)
    omega
  · intro nav h
    unfold BottomTabNavigator.effSelectedIndex
    rw [h]
    rfl

/-- **C10** witness: the only tab of `c10Nav` (no `selectedIndex` prop) is
selected, and the effective index is the default `0`. -/
theorem c10_witness :
    ((renderedTabs 0 c10Nav).get ⟨0, by decide⟩).selected = some true
  ∧ BottomTabNavigator.effSelectedIndex c10Nav = 0 :=
  ⟨(c10_unique_selected_child.1 0 c10Nav 0 (by decide)).trans (by decide),
   c10_unique_selected_child.2.2 c10Nav rfl⟩

/-- **C9** witness: tapping the selected (first) tab of `c1NavB` invokes
nothing, and `onChildPress` at the selected index is empty. -/
theorem c9_witness :
    tapChild 0 c1NavB 0 = []
  ∧ (1 : Int) ≠ BottomTabNavigator.effSelectedIndex c1NavB :=
  ⟨c9_selected_tab_tap_is_silent.1 0 c1NavB 0 rfl,
   c9_selected_tab_tap_is_silent.2 c1NavB 1 (by decide)⟩

end UIKitten
